import Mathlib

/-
Verification development for the AI-meeting orchestrator.

The definitions below are a shallow embedding of the TypeScript source:
  * src/lib/voting/evaluator.ts        (aggregateVotes, evaluateThreshold)
  * src/lib/orchestrator/context-builder.ts (resolveDiscussionMode)
  * src/lib/orchestrator/runner.ts     (MeetingRunner: voting phase, final
    document approval loop, facilitator retry loop, provider fallback,
    finishAccepted / finishAborted, handleUserMessage)
  * src/lib/facilitator/facilitator.ts (FacilitatorService.run)
  * the user-message and abort API route handlers.

JavaScript numbers that can become NaN are modelled as `Option ℚ` with
`none` standing for NaN (and for `undefined` flowing into Math.round);
all other numeric fields are `Nat`/`Int`/`ℚ`. Concurrency of the runner
is modelled as a labelled small-step transition system `Step` whose
atomic steps correspond to the synchronous (no intervening `await` that
can observe foreign writes) code regions of the runner and routes.
-/

namespace AIMeeting

/-! ## Domain data (src/lib/domain/models.ts, src/lib/domain/config.ts usage) -/

/-- Vote record as used by the orchestrator and evaluator; fields not read
by any embedded operation (ids, rationale, timestamps) are omitted. -/
structure Vote where
  voter_agent_id : String
  score : Int
  pass : Bool
  stage_version : Nat
  deriving Repr, DecidableEq

/-- Agent configuration fields read by the embedded operations. -/
structure AgentConfig where
  id : String
  provider : String
  model : String
  enabled : Bool
  deriving Repr, DecidableEq

inductive DiscussionModeCfg where
  | auto
  | serial_turn
  | parallel_round
  deriving Repr, DecidableEq

structure DiscussionConfig where
  mode : DiscussionModeCfg
  auto_parallel_min_agents : Nat
  deriving Repr, DecidableEq

structure ThresholdConfig where
  mode : String
  avg_score_threshold : Int
  min_rounds : Nat
  max_rounds : Nat
  deriving Repr, DecidableEq

structure MeetingConfig where
  agents : List AgentConfig
  discussion : DiscussionConfig
  threshold : ThresholdConfig
  deriving Repr, DecidableEq

inductive MState where
  | DRAFT
  | RUNNING_DISCUSSION
  | RUNNING_VOTE
  | FINISHED_ACCEPTED
  | FINISHED_ABORTED
  deriving Repr, DecidableEq

inductive VoteSessionStatus where
  | RUNNING
  | FINALIZED
  | ABORTED
  | INCOMPLETE
  deriving Repr, DecidableEq

/-! ## Threshold evaluator (src/lib/voting/evaluator.ts) -/

structure VoteAgg where
  avg_score : Int
  min_score : Int
  max_score : Int
  deriving Repr, DecidableEq

/-- JavaScript Math.round for a finite value: round half toward plus
infinity. All quotients arising here (integer sum over a count between 1
and 8) are either exactly representable as doubles or too far from a
half-integer for double rounding to change the result, so the rational
semantics agrees with the float semantics. -/
def roundHalfUp (q : ℚ) : Int :=
  Int.floor (q + (1/2 : ℚ))

/-- aggregateVotes (evaluator.ts lines 5-17): empty list yields all
zeroes; otherwise avg = Math.round(sum / n), with min and max over the
scores. -/
def aggregateVotes (votes : List Vote) : VoteAgg :=
  match votes with
  | [] => { avg_score := 0, min_score := 0, max_score := 0 }
  | v :: vs =>
    let scores : List Int := (v :: vs).map (·.score)
    let sum : Int := scores.foldl (· + ·) 0
    { avg_score := roundHalfUp ((sum : ℚ) / (scores.length : ℚ))
      min_score := vs.foldl (fun acc w => min acc w.score) v.score
      max_score := vs.foldl (fun acc w => max acc w.score) v.score }

structure ThresholdEvaluation where
  accepted : Bool
  reason : String
  avg_score : Int
  required_threshold : Int
  deriving Repr, DecidableEq

/-- evaluateThreshold (evaluator.ts lines 19-53): min-rounds check first,
then the avg_score mode, then the unknown-mode rejection. -/
def evaluateThreshold (threshold : ThresholdConfig) (round : Nat) (agg : VoteAgg) :
    ThresholdEvaluation :=
  if round < threshold.min_rounds then
    { accepted := false
      reason := "Minimum rounds not reached (" ++ toString round ++ "/" ++
        toString threshold.min_rounds ++ ")"
      avg_score := agg.avg_score
      required_threshold := threshold.avg_score_threshold }
  else if threshold.mode = "avg_score" then
    let ok := decide (threshold.avg_score_threshold ≤ agg.avg_score)
    { accepted := ok
      reason := if ok then
          "Average score " ++ toString agg.avg_score ++ " meets threshold " ++
            toString threshold.avg_score_threshold
        else
          "Average score " ++ toString agg.avg_score ++ " below threshold " ++
            toString threshold.avg_score_threshold
      avg_score := agg.avg_score
      required_threshold := threshold.avg_score_threshold }
  else
    { accepted := false
      reason := "Unknown threshold mode: " ++ threshold.mode
      avg_score := agg.avg_score
      required_threshold := threshold.avg_score_threshold }

/-- Result of the settle tail of runVotingPhase. -/
inductive VotePhaseSettleResult where
  | aborted
  | settled (status : VoteSessionStatus) (evaluation : ThresholdEvaluation)
  deriving Repr, DecidableEq

/-- Tail of MeetingRunner.runVotingPhase (runner lines 597-635) once all
vote tasks have settled: the meeting is re-read and, if its
stage_version no longer equals the session's, the phase returns
"aborted" without finalizing or evaluating (the interrupt that bumped
the version already marked the session ABORTED, lines 124-131);
otherwise the persisted votes are aggregated, evaluated, and the
session is finalized with status FINALIZED unconditionally. -/
def runVotingPhaseSettleChecked (threshold : ThresholdConfig) (round : Nat)
    (sessionStageVersion currentStageVersion : Nat) (persisted : List Vote) :
    VotePhaseSettleResult :=
  if currentStageVersion ≠ sessionStageVersion then
    .aborted
  else
    .settled VoteSessionStatus.FINALIZED
      (evaluateThreshold threshold round (aggregateVotes persisted))

/-! ## Discussion-mode resolution (context-builder.ts lines 108-117) -/

inductive EffectiveMode where
  | serial_turn
  | parallel_round
  deriving Repr, DecidableEq

/-- resolveDiscussionMode: under auto, compares config.agents.length
(the full agent list, not the enabled subset) against
auto_parallel_min_agents. -/
def resolveDiscussionMode (config : MeetingConfig) : EffectiveMode :=
  match config.discussion.mode with
  | .auto =>
    if config.discussion.auto_parallel_min_agents ≤ config.agents.length then
      .parallel_round
    else
      .serial_turn
  | .serial_turn => .serial_turn
  | .parallel_round => .parallel_round

/-- Number of enabled agents in a config (the quantity the specification
text uses for auto-mode resolution). -/
def enabledAgentCount (config : MeetingConfig) : Nat :=
  (config.agents.filter (·.enabled)).length

/-! ## Vote-score parsing (runner.ts runVotingPhase lines 560-577 and
parseVoteResponse lines 1004-1035)

A JavaScript number that may be NaN is `Option ℚ`, `none` being NaN.
The parsed JSON `score` field is `Option ℚ`: `some q` when the response
object carries the number `q`, `none` when the field is absent (reading
it yields `undefined`, which Math.round turns into NaN). -/

/-- Math.round with NaN propagation (Math.round(NaN) = NaN,
Math.round(undefined) = NaN). -/
def jsRound : Option ℚ → Option ℚ
  | none => none
  | some q => some ((roundHalfUp q : Int) : ℚ)

/-- Math.min(a, x) where x may be NaN: NaN absorbs. -/
def jsMin (a : ℚ) : Option ℚ → Option ℚ
  | none => none
  | some q => some (min a q)

/-- Math.max(a, x) where x may be NaN: NaN absorbs. -/
def jsMax (a : ℚ) : Option ℚ → Option ℚ
  | none => none
  | some q => some (max a q)

/-- Score computed inline by runVotingPhase (line 572):
Math.max(0, Math.min(100, Math.round(parsed.score))) applied directly to
the parsed field, with no typeof guard. -/
def proposalVoteScore (scoreField : Option ℚ) : Option ℚ :=
  jsMax 0 (jsMin 100 (jsRound scoreField))

/-- Score computed by parseVoteResponse (lines 1015-1021), used by the
final-document approval path: a typeof check substitutes thresholdScore
for a missing or non-numeric score before rounding and clamping. -/
def parseVoteResponseScore (scoreField : Option ℚ) (thresholdScore : ℚ) : ℚ :=
  max 0 (min 100 ((roundHalfUp (match scoreField with
    | some q => q
    | none => thresholdScore) : Int) : ℚ))

/-! ## Facilitator (facilitator.ts FacilitatorService.run lines 29-65,
runner.ts runFacilitator lines 409-483) -/

structure FacOutput where
  disagreements : List String
  proposed_patch : String
  next_focus : List String
  round_summary : String
  deriving Repr, DecidableEq

/-- The pattern is an initial segment of the character list. -/
def leadsWith : List Char → List Char → Bool
  | [], _ => true
  | _ :: _, [] => false
  | p :: ps, c :: cs => (p = c) && leadsWith ps cs

def jsIncludesAux (pat : List Char) : List Char → Bool
  | [] => pat.isEmpty
  | c :: rest => leadsWith pat (c :: rest) || jsIncludesAux pat rest

/-- JavaScript String.prototype.includes: the pattern occurs as a
contiguous substring. -/
def jsIncludes (s pat : String) : Bool :=
  jsIncludesAux pat.data s.data

/-- FacilitatorService.fallback (facilitator.ts lines 90-98): the
sentinel output returned when both gateway attempts fail. -/
def facilitatorFallback (round : Nat) (topic : String) : FacOutput :=
  { disagreements := ["Unable to extract structured disagreements (facilitator error)"]
    proposed_patch := "Continue discussion with current proposal"
    next_focus := ["Please clarify the main points of contention"]
    round_summary := "Round " ++ toString round ++
      " summary unavailable due to facilitator error. The discussion continues on: " ++ topic }

/-- One gateway attempt inside FacilitatorService.run: either the text
generated, parsed and schema-validated successfully, or anything in the
try block threw. -/
inductive FacGatewayAttempt where
  | valid (output : FacOutput)
  | invalid
  deriving Repr, DecidableEq

/-- FacilitatorService.run (facilitator.ts lines 29-65): two gateway
attempts; every exception is caught inside the loop, so the method never
throws and returns the fallback sentinel after two failures. -/
def facilitatorServiceRun (g1 g2 : FacGatewayAttempt) (round : Nat) (topic : String) :
    FacOutput :=
  match g1 with
  | .valid o => o
  | .invalid =>
    match g2 with
    | .valid o => o
    | .invalid => facilitatorFallback round topic

/-- isFallbackOutput check of runFacilitator (runner.ts lines 440-442). -/
def isFallbackOutput (o : FacOutput) : Bool :=
  jsIncludes o.round_summary "summary unavailable due to facilitator error" ||
    o.disagreements.any (fun d => jsIncludes d "facilitator error")

/-- Outcome of one runner-level facilitator attempt: the service call
returned an output, or it threw an ordinary error, or it threw an
AbortError. -/
inductive FacAttempt where
  | ok (output : FacOutput)
  | error
  | abortError
  deriving Repr, DecidableEq

/-- One iteration of the runFacilitator attempt loop (runner.ts lines
428-478). `some r` means the function returns with `r` the appended
facilitator output (`none` = nothing appended); `none` means the loop
continues with the next attempt. -/
def facilitatorAttemptStep (maxAttempts attempt : Nat) (a : FacAttempt) :
    Option (Option FacOutput) :=
  match a with
  | .ok o =>
    if isFallbackOutput o && decide (attempt < maxAttempts) then none
    else some (some o)
  | .abortError => some none
  | .error => if attempt < maxAttempts then none else some none

/-- MeetingRunner.runFacilitator (runner.ts lines 409-483) as a function
of the three attempt outcomes: returns the facilitator output appended
as a system Message (if any) and the number of attempts made. -/
def runFacilitatorRun (a1 a2 a3 : FacAttempt) : Option FacOutput × Nat :=
  match facilitatorAttemptStep 3 1 a1 with
  | some r => (r, 1)
  | none =>
    match facilitatorAttemptStep 3 2 a2 with
    | some r => (r, 2)
    | none =>
      match facilitatorAttemptStep 3 3 a3 with
      | some r => (r, 3)
      | none => (none, 3)

/-- The facilitator message appended for the round, if any. -/
def runFacilitatorAppended (a1 a2 a3 : FacAttempt) : Option FacOutput :=
  (runFacilitatorRun a1 a2 a3).1

/-! ## Mock provider fallback (runner.ts lines 1037-1110) -/

/-- Token list of isRecoverableProviderError (runner.ts lines 1039-1052). -/
def recoverableTokens : List String :=
  ["OpenAI endpoint returned HTML", "returned non-JSON", "after retries",
   "fetch failed", "ECONN", "ETIMEDOUT", "timeout", "API error (5",
   "API error (429", "API error (408", "API error (409", "API error (425"]

/-- isRecoverableProviderError: the error message contains one of the
recoverable tokens. -/
def isRecoverableProviderError (message : String) : Bool :=
  recoverableTokens.any (fun token => jsIncludes message token)

/-- Outcome of one gateway generateText call. -/
inductive GenOutcome where
  | ok (text : String)
  | err (message : String)
  deriving Repr, DecidableEq

/-- Environment for one resilient call: what the primary provider and
the mock provider would each return. -/
structure FallbackEnv where
  primary : GenOutcome
  mock : GenOutcome
  deriving Repr, DecidableEq

structure ResilientGenerateResult where
  text : String
  provider_id : String
  model : String
  used_fallback : Bool
  deriving Repr, DecidableEq

/-- MeetingRunner.generateTextWithProviderFallback (runner.ts lines
1055-1110). Returns the call result together with the number of mock
fallback calls issued (0 or 1). The primary error propagates unchanged
when mock fallback is disallowed, the primary provider already is mock,
or the error is not recoverable. -/
def generateTextWithProviderFallback (provider_id model : String)
    (allowMockFallback : Bool) (env : FallbackEnv) :
    Except String ResilientGenerateResult × Nat :=
  match env.primary with
  | .ok t => (Except.ok { text := t, provider_id := provider_id, model := model, used_fallback := false }, 0)
  | .err msg =>
    if allowMockFallback = false ∨ provider_id = "mock" ∨
        isRecoverableProviderError msg = false then
      (Except.error msg, 0)
    else
      match env.mock with
      | .ok t =>
        (Except.ok { text := t, provider_id := "mock", model := "mock-default", used_fallback := true }, 1)
      | .err msg2 =>
        (Except.error ("failed on primary provider (" ++ msg ++ ") and mock fallback (" ++ msg2 ++ ")"), 1)

/-- provider_request_id recorded on the Message persisted by
runSerialTurn (runner.ts lines 289-291). -/
def serialMessageProviderRequestId (agentProvider : String)
    (r : ResilientGenerateResult) : Option String :=
  if r.used_fallback then some ("fallback:" ++ agentProvider ++ "->" ++ r.provider_id)
  else none

/-! ## Final-document approval loop (runner.ts lines 792-1002) -/

structure FinalEditorResult where
  markdown : String
  succeeded : Bool
  deriving Repr, DecidableEq

structure FinalDocumentResult where
  markdown : String
  attempts : Nat
  unanimous : Bool
  approvals : List Vote
  avgScore : Int
  note : String
  deriving Repr, DecidableEq

/-- Environment of one approval attempt: the meeting-state re-read at the
top of the attempt (runner.ts lines 829-830), the stage_version at that
read, the per-agent review outcome — `some (score, pass)` when that
agent's review task persisted a vote (call succeeded, stage check
passed), `none` when the task yielded nothing — and what the revision
editor would return if invoked. -/
structure FDAttemptEnv where
  stillRunningVote : Bool
  stage_version : Nat
  outcome : String → Option (Int × Bool)
  revise : FinalEditorResult

/-- collectFinalDocumentApprovals (runner.ts lines 938-1002): one review
task per enabled agent; the returned list keeps exactly the votes that
were persisted. -/
def collectFinalDocumentApprovals (agents : List AgentConfig) (env : FDAttemptEnv) :
    List Vote :=
  agents.filterMap fun a =>
    (env.outcome a.id).map fun r =>
      { voter_agent_id := a.id, score := r.1, pass := r.2, stage_version := env.stage_version }

/-- The unanimity test of runner.ts line 873:
approvals.length === enabledAgents.length && approvals.every(v => v.pass). -/
def fdUnanimous (agents : List AgentConfig) (env : FDAttemptEnv) : Bool :=
  (collectFinalDocumentApprovals agents env).length = agents.length &&
    (collectFinalDocumentApprovals agents env).all (·.pass)

/-- The attempt loop of generateFinalConsensusDocument (runner.ts lines
828-935), recursing over the remaining attempt numbers. The empty case
is the fall-through after maxAttempts = 3 attempts. -/
def fdGo (agents : List AgentConfig) (baseProposal : String)
    (envs : Nat → FDAttemptEnv) :
    List Nat → String → List Vote → Int → FinalDocumentResult
  | [], draft, lastVotes, lastAvg =>
    { markdown := draft, attempts := 3, unanimous := false, approvals := lastVotes,
      avgScore := lastAvg,
      note := "Exceeded max attempts to get unanimous final document approval" }
  | attempt :: rest, draft, lastVotes, lastAvg =>
    let env := envs attempt
    if env.stillRunningVote = false then
      { markdown := draft, attempts := attempt, unanimous := false,
        approvals := lastVotes, avgScore := lastAvg,
        note := "Meeting left RUNNING_VOTE stage during final document approval" }
    else
      let approvals := collectFinalDocumentApprovals agents env
      let agg := aggregateVotes approvals
      if fdUnanimous agents env then
        { markdown := draft, attempts := attempt, unanimous := true,
          approvals := approvals, avgScore := agg.avg_score,
          note := "Approved by all enabled agents" }
      else if env.revise.succeeded = false then
        { markdown := draft, attempts := attempt, unanimous := false,
          approvals := approvals, avgScore := agg.avg_score,
          note := "Final result document revise failed after retries" }
      else
        fdGo agents baseProposal envs rest
          (if env.revise.markdown.trim ≠ "" then env.revise.markdown else baseProposal)
          approvals agg.avg_score

/-- generateFinalConsensusDocument (runner.ts lines 792-936) over the
initial-draft result and the per-attempt environments. -/
def generateFinalConsensusDocument (agents : List AgentConfig)
    (initialDraft : FinalEditorResult) (baseProposal : String)
    (envs : Nat → FDAttemptEnv) : FinalDocumentResult :=
  if agents.length = 0 then
    { markdown := baseProposal, attempts := 0, unanimous := true, approvals := [],
      avgScore := 0, note := "No enabled agents" }
  else
    let draft := if initialDraft.markdown.trim ≠ "" then initialDraft.markdown else baseProposal
    if initialDraft.succeeded = false then
      { markdown := draft, attempts := 0, unanimous := false, approvals := [],
        avgScore := 0, note := "Final result document generation failed after retries" }
    else
      fdGo agents baseProposal envs [1, 2, 3] draft [] 0

/-- What finishAccepted does with the final-document result. -/
inductive FinishOutcome where
  | accepted (finalDocumentMarkdown : String)
  | aborted (reason : String) (finalDocumentMarkdown : String)
  deriving Repr, DecidableEq

/-- Branch at the top of finishAccepted (runner.ts lines 680-688): a
non-unanimous result diverts to finishAborted with the documented reason
and the last draft as the final-document override, which finishAborted
persists in result.summary_json.final_document_markdown (lines 757-781). -/
def finishAfterVoteAccepted (fd : FinalDocumentResult) : FinishOutcome :=
  if fd.unanimous = false then
    .aborted ("Final result document was not approved by all agents after " ++
      toString fd.attempts ++ " attempt(s)") fd.markdown
  else
    .accepted fd.markdown

/-! ## Runner transition system

Labelled small-step semantics for one meeting. Every step is one code
region of runner.ts or of the API route handlers that runs without an
intervening suspension able to observe foreign writes. With the
in-memory store every store operation and the meeting lock resolve
synchronously (the lock is never held across a microtask drain, since
every lock-guarded body performs only synchronously-resolving store
operations), so each of the following regions runs in one uninterrupted
microtask drain and is one atomic step: the lock-guarded blocks of
start and of the runVotingPhase entry; the whole user-message route
handling from its 409 state check (route lines 28-33) through the
handleUserMessage body, including the message.final emission and the
interrupt branch; the check-then-push persistence of a vote (runner.ts
lines 580-587 and 982-988); and the store updates of finishAccepted and
finishAborted. The runner calls finishAccepted / finishAborted only
from its sequential chain, after Promise.allSettled over every spawned
vote or approval task (lines 595 and 997), so a finish step can fire
only when no spawned task is still in flight — hence the tasks-empty
guard on the two finish steps. In-flight vote tasks are the constructed
Vote values whose persistence step has not run yet; user-message
requests progress pending → rejected (409) or pending → done. -/

structure MeetingSt where
  state : MState
  stage_version : Nat
  round : Nat
  config : MeetingConfig
  effective_discussion_mode : Option EffectiveMode
  active_vote_session_id : Option Nat
  deriving Repr, DecidableEq

inductive Evt where
  | state_changed (state : MState) (round : Nat) (stage_version : Nat)
  | message_final (messageId : Nat)
  | vote_received (v : Vote)
  | session_started (sessionId : Nat) (stage_version : Nat)
  deriving Repr, DecidableEq

inductive ReqPhase where
  | pending
  | rejected
  | done
  deriving Repr, DecidableEq

structure Sys where
  meeting : MeetingSt
  votes : List Vote
  tasks : List Vote
  reqs : List (Nat × ReqPhase)
  events : List Evt
  nextSid : Nat
  deriving Repr, DecidableEq

/-- Store.createMeeting (in-memory-store.ts lines 31-48): state DRAFT,
stage_version 0, round 0, no effective mode, no active session. -/
def initSys (config : MeetingConfig) : Sys :=
  { meeting := { state := .DRAFT, stage_version := 0, round := 0, config := config,
                 effective_discussion_mode := none, active_vote_session_id := none }
    votes := [], tasks := [], reqs := [], events := [], nextSid := 0 }

/-- Interrupt branch of handleUserMessage (runner.ts lines 112-139):
only when the meeting is in RUNNING_VOTE does the user message bump
stage_version, clear the active session and transition to
RUNNING_DISCUSSION, emitting meeting.state_changed. -/
def applyUserMessage (m : MeetingSt) : MeetingSt × List Evt :=
  if m.state = .RUNNING_VOTE then
    ({ m with
        state := .RUNNING_DISCUSSION
        stage_version := m.stage_version + 1
        active_vote_session_id := none },
     [.state_changed .RUNNING_DISCUSSION m.round (m.stage_version + 1)])
  else
    (m, [])

inductive StepLabel where
  | startMeeting
  | setRound (r : Nat)
  | serialAgentMessage (messageId : Nat)
  | enterVote (spawned : List Vote)
  | spawnApprovals (spawned : List Vote)
  | persistVoteOk (v : Vote)
  | persistVoteStale (v : Vote)
  | voteRejected
  | userReqArrive (n : Nat)
  | userCheckReject (n : Nat)
  | userMsgRun (n : Nat)
  | finishAccepted
  | finishAborted
  deriving Repr, DecidableEq

inductive Step : Sys → StepLabel → Sys → Prop where
  /-- MeetingRunner.start (runner.ts lines 61-93), lock-guarded block:
  DRAFT guard, resolve the discussion mode, transition to
  RUNNING_DISCUSSION with stage_version + 1, emit meeting.state_changed
  with round 0. -/
  | startMeeting (s : Sys) (h : s.meeting.state = .DRAFT) :
      Step s .startMeeting
        { s with
          meeting := { s.meeting with
            state := .RUNNING_DISCUSSION,
            stage_version := s.meeting.stage_version + 1,
            effective_discussion_mode := some (resolveDiscussionMode s.meeting.config) }
          events := s.events ++
            [.state_changed .RUNNING_DISCUSSION 0 (s.meeting.stage_version + 1)] }
  /-- runDiscussionRound round update (runner.ts lines 208-211), guarded
  by the RUNNING_DISCUSSION check of line 209. -/
  | setRound (s : Sys) (r : Nat) (h : s.meeting.state = .RUNNING_DISCUSSION) :
      Step s (.setRound r) { s with meeting := { s.meeting with round := r } }
  /-- One serial-turn agent message append (runner.ts lines 239-296),
  guarded by the per-agent RUNNING_DISCUSSION re-check of line 240;
  appendMessage then emit message.final. -/
  | serialAgentMessage (s : Sys) (messageId : Nat)
      (h : s.meeting.state = .RUNNING_DISCUSSION) :
      Step s (.serialAgentMessage messageId)
        { s with events := s.events ++ [.message_final messageId] }
  /-- runVotingPhase entry (runner.ts lines 490-535): lock-guarded
  RUNNING_DISCUSSION guard and transition to RUNNING_VOTE with
  stage_version + 1, then session creation and the dispatch of one vote
  task per enabled agent, each task carrying a Vote whose stage_version
  is the meeting.stage_version snapshot (line 575). -/
  | enterVote (s : Sys) (spawned : List Vote)
      (h : s.meeting.state = .RUNNING_DISCUSSION)
      (hv : ∀ v ∈ spawned, v.stage_version = s.meeting.stage_version + 1) :
      Step s (.enterVote spawned)
        { s with
          meeting := { s.meeting with
            state := .RUNNING_VOTE,
            stage_version := s.meeting.stage_version + 1,
            active_vote_session_id := some s.nextSid }
          tasks := s.tasks ++ spawned
          events := s.events ++
            [.state_changed .RUNNING_VOTE s.meeting.round (s.meeting.stage_version + 1),
             .session_started s.nextSid (s.meeting.stage_version + 1)]
          nextSid := s.nextSid + 1 }
  /-- One final-document approval attempt start (runner.ts lines
  828-868): RUNNING_VOTE guard of lines 829-830, new session at the
  re-read stage_version, review tasks carrying that stage_version
  (line 978). -/
  | spawnApprovals (s : Sys) (spawned : List Vote)
      (h : s.meeting.state = .RUNNING_VOTE)
      (hv : ∀ v ∈ spawned, v.stage_version = s.meeting.stage_version) :
      Step s (.spawnApprovals spawned)
        { s with
          meeting := { s.meeting with active_vote_session_id := some s.nextSid }
          tasks := s.tasks ++ spawned
          events := s.events ++ [.session_started s.nextSid s.meeting.stage_version]
          nextSid := s.nextSid + 1 }
  /-- Vote persistence with matching stage_version (runner.ts lines
  580-587 and 982-988): the meeting re-read equals the vote's recorded
  stage_version, so appendVote pushes the vote and vote.received is
  emitted. -/
  | persistVoteOk (s : Sys) (v : Vote) (t₁ t₂ : List Vote)
      (ht : s.tasks = t₁ ++ v :: t₂)
      (h : s.meeting.stage_version = v.stage_version) :
      Step s (.persistVoteOk v)
        { s with
          tasks := t₁ ++ t₂
          votes := s.votes ++ [v]
          events := s.events ++ [.vote_received v] }
  /-- Vote persistence with stage mismatch (same lines): the task
  returns null, nothing is appended and no event is emitted. -/
  | persistVoteStale (s : Sys) (v : Vote) (t₁ t₂ : List Vote)
      (ht : s.tasks = t₁ ++ v :: t₂)
      (h : s.meeting.stage_version ≠ v.stage_version) :
      Step s (.persistVoteStale v) { s with tasks := t₁ ++ t₂ }
  /-- Back-to-discussion after a rejected evaluation (runner.ts lines
  643-657), lock-guarded with the RUNNING_VOTE guard of line 645. -/
  | voteRejected (s : Sys) (h : s.meeting.state = .RUNNING_VOTE) :
      Step s .voteRejected
        { s with
          meeting := { s.meeting with
            state := .RUNNING_DISCUSSION,
            stage_version := s.meeting.stage_version + 1,
            active_vote_session_id := none }
          events := s.events ++
            [.state_changed .RUNNING_DISCUSSION s.meeting.round
              (s.meeting.stage_version + 1)] }
  /-- A user-message POST arrives (route lines 7-27). -/
  | userReqArrive (s : Sys) (n : Nat) :
      Step s (.userReqArrive n) { s with reqs := s.reqs ++ [(n, .pending)] }
  /-- The route state check fails (409 CONFLICT, route lines 28-33):
  the request is rejected and handleUserMessage is never called for
  it. -/
  | userCheckReject (s : Sys) (n : Nat) (r₁ r₂ : List (Nat × ReqPhase))
      (hr : s.reqs = r₁ ++ (n, .pending) :: r₂)
      (h : ¬(s.meeting.state = .RUNNING_DISCUSSION ∨ s.meeting.state = .RUNNING_VOTE)) :
      Step s (.userCheckReject n) { s with reqs := r₁ ++ (n, .rejected) :: r₂ }
  /-- The route state check passes (lines 28-33) and the
  MeetingRunner.handleUserMessage body (runner.ts lines 95-143) runs:
  append the user Message, emit message.final, then the RUNNING_VOTE
  interrupt branch. Check and body execute in one microtask drain (all
  awaits between them resolve synchronously and nothing in the window
  resolves a runner promise), so they form one atomic step. -/
  | userMsgRun (s : Sys) (n : Nat) (r₁ r₂ : List (Nat × ReqPhase))
      (hr : s.reqs = r₁ ++ (n, .pending) :: r₂)
      (h : s.meeting.state = .RUNNING_DISCUSSION ∨ s.meeting.state = .RUNNING_VOTE) :
      Step s (.userMsgRun n)
        { s with
          meeting := (applyUserMessage s.meeting).1
          reqs := r₁ ++ (n, .done) :: r₂
          events := s.events ++ [.message_final n] ++ (applyUserMessage s.meeting).2 }
  /-- finishAccepted store update (runner.ts lines 711-742): sets
  FINISHED_ACCEPTED, clears the active session, leaves stage_version
  unchanged, emits meeting.state_changed with the updated (unchanged)
  round and stage_version. The runner calls it only from its sequential
  chain after Promise.allSettled over every spawned vote and approval
  task, so it can fire only with no task in flight. -/
  | finishAccepted (s : Sys) (htasks : s.tasks = []) :
      Step s .finishAccepted
        { s with
          meeting := { s.meeting with
            state := .FINISHED_ACCEPTED, active_vote_session_id := none }
          events := s.events ++
            [.state_changed .FINISHED_ACCEPTED s.meeting.round s.meeting.stage_version] }
  /-- finishAborted store update (runner.ts lines 770-789): sets
  FINISHED_ABORTED, clears the active session, leaves stage_version
  unchanged, emits meeting.state_changed. Like finishAccepted it runs
  only from the sequential runner chain with every spawned task
  settled. -/
  | finishAborted (s : Sys) (htasks : s.tasks = []) :
      Step s .finishAborted
        { s with
          meeting := { s.meeting with
            state := .FINISHED_ABORTED, active_vote_session_id := none }
          events := s.events ++
            [.state_changed .FINISHED_ABORTED s.meeting.round s.meeting.stage_version] }

/-- Reflexive-transitive closure of `Step`. -/
inductive Reachable : Sys → Sys → Prop where
  | refl (s : Sys) : Reachable s s
  | step {s t u : Sys} (h1 : Reachable s t) (l : StepLabel) (h2 : Step t l u) :
      Reachable s u

def agentEx (i : Nat) (enabled : Bool) : AgentConfig :=
  { id := "agent-" ++ toString i, provider := "mock", model := "mock-default",
    enabled := enabled }

def thresholdEx : ThresholdConfig :=
  { mode := "avg_score", avg_score_threshold := 80, min_rounds := 2, max_rounds := 8 }

/-- Config with six configured agents of which only three are enabled,
auto discussion mode, auto_parallel_min_agents at its default 6. -/
def cfg6of3 : MeetingConfig :=
  { agents := [agentEx 1 true, agentEx 2 true, agentEx 3 true,
               agentEx 4 false, agentEx 5 false, agentEx 6 false]
    discussion := { mode := .auto, auto_parallel_min_agents := 6 }
    threshold := thresholdEx }

def cfgEx : MeetingConfig :=
  { agents := [agentEx 1 true, agentEx 2 true, agentEx 3 true]
    discussion := { mode := .auto, auto_parallel_min_agents := 6 }
    threshold := thresholdEx }

def agentsEx1 : List AgentConfig := [agentEx 1 true]

def fdEnvRejecting : FDAttemptEnv :=
  { stillRunningVote := true, stage_version := 2,
    outcome := fun _ => some (10, false),
    revise := { markdown := "Revised draft", succeeded := true } }

/-- The vote carried by the in-flight proposal-vote task of the trace
below: constructed at stage_version 2. -/
def voteEx : Vote :=
  { voter_agent_id := "agent-1", score := 90, pass := true, stage_version := 2 }

/-! A concrete run: start; enter the vote phase spawning one vote task;
persist that vote. Separately from the started state: abort with no
task in flight (the max-rounds path), after which a user-message
request arrives and is rejected by the route state check. -/

def traceS0 : Sys := initSys cfgEx

def traceS1 : Sys :=
  { traceS0 with
    meeting := { traceS0.meeting with
      state := .RUNNING_DISCUSSION,
      stage_version := traceS0.meeting.stage_version + 1,
      effective_discussion_mode := some (resolveDiscussionMode traceS0.meeting.config) }
    events := traceS0.events ++
      [.state_changed .RUNNING_DISCUSSION 0 (traceS0.meeting.stage_version + 1)] }

def traceS2 : Sys :=
  { traceS1 with
    meeting := { traceS1.meeting with
      state := .RUNNING_VOTE,
      stage_version := traceS1.meeting.stage_version + 1,
      active_vote_session_id := some traceS1.nextSid }
    tasks := traceS1.tasks ++ [voteEx]
    events := traceS1.events ++
      [.state_changed .RUNNING_VOTE traceS1.meeting.round (traceS1.meeting.stage_version + 1),
       .session_started traceS1.nextSid (traceS1.meeting.stage_version + 1)]
    nextSid := traceS1.nextSid + 1 }

def traceS3 : Sys :=
  { traceS2 with
    tasks := ([] : List Vote) ++ []
    votes := traceS2.votes ++ [voteEx]
    events := traceS2.events ++ [.vote_received voteEx] }

def traceFin : Sys :=
  { traceS1 with
    meeting := { traceS1.meeting with
      state := .FINISHED_ABORTED, active_vote_session_id := none }
    events := traceS1.events ++
      [.state_changed .FINISHED_ABORTED traceS1.meeting.round traceS1.meeting.stage_version] }

/-- Claim C2 as stated: stage_version strictly increases at every state
transition (including the transitions into the FINISHED states). -/
def StageStrictOnTransition : Prop :=
  ∀ (s : Sys) (l : StepLabel) (s' : Sys), Step s l s' →
    s'.meeting.state ≠ s.meeting.state →
    s.meeting.stage_version < s'.meeting.stage_version

/-! ## Helper lemmas -/

theorem filterMap_length_eq_isSome {α β : Type} (f : α → Option β) :
    ∀ l : List α, (l.filterMap f).length = l.length → ∀ a ∈ l, (f a).isSome = true := by
  intro l
  induction l with
  | nil => intro _ a ha; cases ha
  | cons x xs ih =>
    intro h a ha
    cases hx : f x with
    | none =>
      exfalso
      rw [List.filterMap_cons_none hx] at h
      have hle := List.length_filterMap_le f xs
      simp only [List.length_cons] at h
      omega
    | some b =>
      rw [List.filterMap_cons_some hx] at h
      simp only [List.length_cons, Nat.add_right_cancel_iff] at h
      cases ha with
      | head => simp [hx]
      | tail _ hmem => exact ih h a hmem

theorem traceStep01 : Step traceS0 .startMeeting traceS1 :=
  Step.startMeeting traceS0 rfl

theorem traceStep12 : Step traceS1 (.enterVote [voteEx]) traceS2 :=
  Step.enterVote traceS1 [voteEx] rfl (by decide)

theorem traceStep2p : Step traceS2 (.persistVoteOk voteEx) traceS3 :=
  Step.persistVoteOk traceS2 voteEx [] [] rfl rfl

theorem traceStep1f : Step traceS1 .finishAborted traceFin :=
  Step.finishAborted traceS1 rfl

theorem traceReach1 : Reachable traceS0 traceS1 :=
  Reachable.step (Reachable.refl traceS0) .startMeeting traceStep01

/-- C4: the Threshold Evaluator rejects whenever round < min_rounds; for
mode avg_score and round ≥ min_rounds it accepts exactly when
avg_score ≥ avg_score_threshold; any other mode rejects; and for a
non-empty persisted-vote list the aggregated avg_score is the
half-up integer rounding of the mean of the scores. -/
theorem c4_threshold_evaluator (t : ThresholdConfig) (round : Nat) (agg : VoteAgg)
    (votes : List Vote) :
    (round < t.min_rounds → (evaluateThreshold t round agg).accepted = false)
    ∧ (t.min_rounds ≤ round → t.mode = "avg_score" →
        ((evaluateThreshold t round agg).accepted = true ↔
          t.avg_score_threshold ≤ agg.avg_score))
    ∧ (t.mode ≠ "avg_score" → (evaluateThreshold t round agg).accepted = false)
    ∧ (votes ≠ [] → (aggregateVotes votes).avg_score =
        roundHalfUp ((((votes.map (·.score)).sum : Int) : ℚ) / ((votes.length : Nat) : ℚ))) := by
  refine ⟨?_, ?_, ?_, ?_⟩
  · intro h
    simp [evaluateThreshold, h]
  · intro h hm
    have hlt : ¬ round < t.min_rounds := not_lt.mpr h
    simp [evaluateThreshold, hlt, hm]
  · intro hm
    by_cases h : round < t.min_rounds
    · simp [evaluateThreshold, h]
    · simp [evaluateThreshold, h, hm]
  · intro hne
    match votes with
    | v :: vs =>
      simp [aggregateVotes, List.sum_eq_foldl]

/-- Witness for c4_threshold_evaluator at a concrete input. -/
theorem c4_threshold_evaluator_witness :
    (1 : Nat) < thresholdEx.min_rounds ∧
      (evaluateThreshold thresholdEx 1
        { avg_score := 90, min_score := 90, max_score := 90 }).accepted = false :=
  ⟨by decide,
   (c4_threshold_evaluator thresholdEx 1
     { avg_score := 90, min_score := 90, max_score := 90 } []).1 (by decide)⟩

/-- C10 counterexample: when the persisted votes are missing because a
user interrupt bumped stage_version (session created at stage_version 2,
meeting re-read at 3), the settle re-check of runVotingPhase fails and
the phase returns aborted without finalizing or evaluating — the empty
vote session is NOT FINALIZED, refuting the claim's "or were dropped"
case. -/
theorem c10_dropped_votes_counterexample :
    runVotingPhaseSettleChecked thresholdEx 3 2 3 [] = VotePhaseSettleResult.aborted
    ∧ ∀ ev, runVotingPhaseSettleChecked thresholdEx 3 2 3 [] ≠
        VotePhaseSettleResult.settled VoteSessionStatus.FINALIZED ev := by
  refine ⟨by decide, ?_⟩
  intro ev h
  rw [show runVotingPhaseSettleChecked thresholdEx 3 2 3 [] =
      VotePhaseSettleResult.aborted from by decide] at h
  cases h

/-- C10 amended: aggregateVotes on the empty list returns avg_score 0,
min_score 0 and max_score 0; a proposal vote session in which no vote
was persisted because all calls failed — the stage re-check still
passing — is still FINALIZED and evaluated with avg_score 0, which
rejects whenever avg_score_threshold > 0; but when stage_version moved
(votes dropped by an interrupt), the phase returns aborted without
finalizing and the session is not FINALIZED. -/
theorem c10_empty_vote_session_amended (t : ThresholdConfig) (round : Nat)
    (sessionSv currentSv : Nat) :
    aggregateVotes [] = { avg_score := 0, min_score := 0, max_score := 0 }
    ∧ (currentSv = sessionSv →
        runVotingPhaseSettleChecked t round sessionSv currentSv [] =
          VotePhaseSettleResult.settled VoteSessionStatus.FINALIZED
            (evaluateThreshold t round (aggregateVotes []))
        ∧ (0 < t.avg_score_threshold →
            (evaluateThreshold t round (aggregateVotes [])).accepted = false))
    ∧ (currentSv ≠ sessionSv →
        runVotingPhaseSettleChecked t round sessionSv currentSv [] =
          VotePhaseSettleResult.aborted) := by
  refine ⟨rfl, ?_, ?_⟩
  · intro heq
    refine ⟨by simp [runVotingPhaseSettleChecked, heq], ?_⟩
    intro hpos
    by_cases h : round < t.min_rounds
    · simp [evaluateThreshold, aggregateVotes, h]
    · by_cases hm : t.mode = "avg_score"
      · simp [evaluateThreshold, aggregateVotes, h, hm]
        omega
      · simp [evaluateThreshold, aggregateVotes, h, hm]
  · intro hne
    simp [runVotingPhaseSettleChecked, hne]

/-- Witness for c10_empty_vote_session_amended at concrete inputs. -/
theorem c10_empty_vote_session_amended_witness :
    runVotingPhaseSettleChecked thresholdEx 3 2 2 [] =
      VotePhaseSettleResult.settled VoteSessionStatus.FINALIZED
        (evaluateThreshold thresholdEx 3 (aggregateVotes []))
    ∧ (evaluateThreshold thresholdEx 3 (aggregateVotes [])).accepted = false :=
  ⟨((c10_empty_vote_session_amended thresholdEx 3 2 2).2.1 rfl).1,
   ((c10_empty_vote_session_amended thresholdEx 3 2 2).2.1 rfl).2 (by decide)⟩

/-- C9 (code bug): the inline score computation of runVotingPhase turns
a valid-JSON response without a numeric score field into NaN — the
clamp never produces an integer in [0, 100] for it — while the sibling
parseVoteResponse used by the final-document path substitutes the
threshold score and stays in range. -/
theorem c9_missing_score_is_nan :
    proposalVoteScore none = none
    ∧ (∀ n : Int, proposalVoteScore none ≠ some ((n : Int) : ℚ))
    ∧ parseVoteResponseScore none 80 = 80
    ∧ (∀ q : ℚ, 0 ≤ parseVoteResponseScore none q ∧ parseVoteResponseScore none q ≤ 100) := by
  refine ⟨rfl, ?_, by norm_num [parseVoteResponseScore, roundHalfUp], ?_⟩
  · intro n h
    simp [proposalVoteScore, jsRound, jsMin, jsMax] at h
  · intro q
    exact ⟨by simp [parseVoteResponseScore], by simp [parseVoteResponseScore]⟩

/-- C5 counterexample: with six configured agents of which only three
are enabled and auto_parallel_min_agents = 6, auto mode resolves to
parallel_round although the number of enabled agents (3) is below the
threshold — refuting the claim that the comparison uses the enabled
agent count. -/
theorem c5_auto_mode_counterexample :
    resolveDiscussionMode cfg6of3 = .parallel_round
    ∧ enabledAgentCount cfg6of3 < cfg6of3.discussion.auto_parallel_min_agents
    ∧ ¬ (resolveDiscussionMode cfg6of3 = .parallel_round ↔
          cfg6of3.discussion.auto_parallel_min_agents ≤ enabledAgentCount cfg6of3) := by
  refine ⟨by decide, by decide, ?_⟩
  intro hiff
  have := hiff.mp (by decide)
  revert this
  decide

/-- C5 amended: under auto mode the resolution compares the total
number of configured agents (enabled or not) with
auto_parallel_min_agents; the resolved mode is written into
effective_discussion_mode by the start step and no later step changes it
(nor can the meeting re-enter DRAFT). -/
theorem c5_auto_mode_amended :
    (∀ config : MeetingConfig, config.discussion.mode = .auto →
      (resolveDiscussionMode config = .parallel_round ↔
        config.discussion.auto_parallel_min_agents ≤ config.agents.length))
    ∧ (∀ s s' : Sys, Step s .startMeeting s' →
        s'.meeting.effective_discussion_mode = some (resolveDiscussionMode s.meeting.config))
    ∧ (∀ (s : Sys) (l : StepLabel) (s' : Sys), Step s l s' → s.meeting.state ≠ .DRAFT →
        s'.meeting.effective_discussion_mode = s.meeting.effective_discussion_mode
        ∧ s'.meeting.state ≠ .DRAFT) := by
  refine ⟨?_, ?_, ?_⟩
  · intro config hmode
    unfold resolveDiscussionMode
    rw [hmode]
    by_cases h : config.discussion.auto_parallel_min_agents ≤ config.agents.length
    · simp [h]
    · simp [h]
  · intro s s' h
    cases h
    rfl
  · intro s l s' h hne
    cases h with
    | startMeeting hd => exact absurd hd hne
    | setRound r hd => exact ⟨rfl, by simp [hd]⟩
    | serialAgentMessage mid hd => exact ⟨rfl, by simp [hd]⟩
    | enterVote spawned hd hv => exact ⟨rfl, by simp⟩
    | spawnApprovals spawned hd hv => exact ⟨rfl, by simp [hd]⟩
    | persistVoteOk v t₁ t₂ ht hv => exact ⟨rfl, hne⟩
    | persistVoteStale v t₁ t₂ ht hv => exact ⟨rfl, hne⟩
    | voteRejected hd => exact ⟨rfl, by simp⟩
    | userReqArrive n => exact ⟨rfl, hne⟩
    | userCheckReject n r₁ r₂ hr hd => exact ⟨rfl, hne⟩
    | userMsgRun n r₁ r₂ hr hd =>
      constructor
      · simp only [applyUserMessage]
        split <;> rfl
      · simp only [applyUserMessage]
        split
        · simp
        · exact hne
    | finishAccepted htasks => exact ⟨rfl, by simp⟩
    | finishAborted htasks => exact ⟨rfl, by simp⟩

/-- Witness for c5_auto_mode_amended at a concrete input. -/
theorem c5_auto_mode_amended_witness :
    cfgEx.discussion.mode = .auto ∧
      (resolveDiscussionMode cfgEx = .parallel_round ↔
        cfgEx.discussion.auto_parallel_min_agents ≤ cfgEx.agents.length) :=
  ⟨rfl, c5_auto_mode_amended.1 cfgEx rfl⟩

/-- C6 counterexample: when the facilitator service yields the fallback
sentinel output on all three runner attempts (for example because the
provider returns non-JSON on every gateway call), the third attempt's
sentinel output IS appended as the facilitator message for the round —
refuting the claim that no facilitator Message is appended. -/
theorem c6_facilitator_counterexample :
    runFacilitatorAppended
        (.ok (facilitatorServiceRun .invalid .invalid 1 "Rollout plan"))
        (.ok (facilitatorServiceRun .invalid .invalid 1 "Rollout plan"))
        (.ok (facilitatorServiceRun .invalid .invalid 1 "Rollout plan"))
      = some (facilitatorFallback 1 "Rollout plan")
    ∧ isFallbackOutput (facilitatorFallback 1 "Rollout plan") = true
    ∧ runFacilitatorAppended
        (.ok (facilitatorServiceRun .invalid .invalid 1 "Rollout plan"))
        (.ok (facilitatorServiceRun .invalid .invalid 1 "Rollout plan"))
        (.ok (facilitatorServiceRun .invalid .invalid 1 "Rollout plan")) ≠ none := by
  refine ⟨by decide, by decide, ?_⟩
  intro h
  rw [show runFacilitatorAppended
        (.ok (facilitatorServiceRun .invalid .invalid 1 "Rollout plan"))
        (.ok (facilitatorServiceRun .invalid .invalid 1 "Rollout plan"))
        (.ok (facilitatorServiceRun .invalid .invalid 1 "Rollout plan"))
      = some (facilitatorFallback 1 "Rollout plan") from by decide] at h
  cases h

/-- C6 amended: at most 3 facilitator attempts are made per round; if
all three attempts throw, no facilitator Message is appended; but when
the attempts return the fallback sentinel output, the third attempt's
output is appended regardless. -/
theorem c6_facilitator_amended (a1 a2 a3 : FacAttempt) :
    (runFacilitatorRun a1 a2 a3).2 ≤ 3
    ∧ (a1 = .error → a2 = .error → a3 = .error →
        runFacilitatorAppended a1 a2 a3 = none)
    ∧ (∀ o1 o2 o3 : FacOutput, a1 = .ok o1 → a2 = .ok o2 → a3 = .ok o3 →
        isFallbackOutput o1 = true → isFallbackOutput o2 = true →
        runFacilitatorAppended a1 a2 a3 = some o3) := by
  refine ⟨?_, ?_, ?_⟩
  · unfold runFacilitatorRun
    cases facilitatorAttemptStep 3 1 a1
    · cases facilitatorAttemptStep 3 2 a2
      · cases facilitatorAttemptStep 3 3 a3 <;> simp
      · simp
    · simp
  · intro h1 h2 h3
    subst h1; subst h2; subst h3
    decide
  · intro o1 o2 o3 h1 h2 h3 hf1 hf2
    subst h1; subst h2; subst h3
    simp [runFacilitatorAppended, runFacilitatorRun, facilitatorAttemptStep, hf1, hf2]

/-- Witness for c6_facilitator_amended at a concrete input. -/
theorem c6_facilitator_amended_witness :
    runFacilitatorAppended .error .error .error = none :=
  (c6_facilitator_amended .error .error .error).2.1 rfl rfl rfl

/-- C8 counterexample: a discussion or vote call whose configured
provider is already mock and which fails with a recoverable error
propagates the error with zero mock retries — refuting the claim that
every recoverable failure is retried exactly once against mock. -/
theorem c8_mock_primary_counterexample :
    isRecoverableProviderError "ETIMEDOUT" = true
    ∧ (generateTextWithProviderFallback "mock" "mock-default" true
        { primary := .err "ETIMEDOUT", mock := .ok "ok" }).2 = 0
    ∧ (generateTextWithProviderFallback "mock" "mock-default" true
        { primary := .err "ETIMEDOUT", mock := .ok "ok" }).1
      = Except.error "ETIMEDOUT" := by
  refine ⟨by decide, by decide, rfl⟩

/-- C8 amended: a discussion or vote call (allow_mock_fallback = true)
that fails with a recoverable error and whose provider is not already
mock is retried exactly once against mock/mock-default; on success the
serial-turn Message records provider_request_id
"fallback:<orig>->mock"; a non-recoverable error propagates unchanged
with no mock retry. -/
theorem c8_fallback_amended (p m msg : String) (env : FallbackEnv)
    (hp : env.primary = .err msg) :
    (isRecoverableProviderError msg = true → p ≠ "mock" →
      (generateTextWithProviderFallback p m true env).2 = 1
      ∧ (∀ t, env.mock = .ok t →
          (generateTextWithProviderFallback p m true env).1 =
            Except.ok { text := t, provider_id := "mock", model := "mock-default",
                        used_fallback := true }
          ∧ serialMessageProviderRequestId p
              { text := t, provider_id := "mock", model := "mock-default",
                used_fallback := true }
            = some ("fallback:" ++ p ++ "->mock")))
    ∧ (isRecoverableProviderError msg = false →
        (generateTextWithProviderFallback p m true env).1 = Except.error msg
        ∧ (generateTextWithProviderFallback p m true env).2 = 0) := by
  constructor
  · intro hrec hpm
    constructor
    · simp [generateTextWithProviderFallback, hp, hrec, hpm]
      cases hm : env.mock <;> simp
    · intro t hm
      constructor
      · simp [generateTextWithProviderFallback, hp, hrec, hpm, hm]
      · simp only [serialMessageProviderRequestId, if_pos]
        rw [String.append_assoc ("fallback:" ++ p) "->" "mock"]
        rfl
  · intro hrec
    constructor
    · simp [generateTextWithProviderFallback, hp, hrec]
    · simp [generateTextWithProviderFallback, hp, hrec]

/-- Witness for c8_fallback_amended at a concrete input. -/
theorem c8_fallback_amended_witness :
    (generateTextWithProviderFallback "openai" "gpt-4o" true
      { primary := .err "request timeout", mock := .ok "hello" }).2 = 1 :=
  ((c8_fallback_amended "openai" "gpt-4o" "request timeout"
      { primary := .err "request timeout", mock := .ok "hello" } rfl).1
    (by decide) (by decide)).1

/-- C1: in every step of every trace, a vote is appended to the store
only by the guarded persistence step, whose pre-state meeting
stage_version (the value read immediately before the append) equals the
stage_version recorded in the vote; the stale persistence step drops the
vote and appends nothing. -/
theorem c1_vote_persist_guard (s : Sys) (l : StepLabel) (s' : Sys) (h : Step s l s') :
    (∃ tl, s'.votes = s.votes ++ tl ∧
      ∀ v ∈ tl, v.stage_version = s.meeting.stage_version)
    ∧ (∀ v, l = .persistVoteStale v → s'.votes = s.votes) := by
  cases h with
  | persistVoteOk v t₁ t₂ ht hg =>
    refine ⟨⟨[v], rfl, ?_⟩, ?_⟩
    · intro w hw
      simp only [List.mem_singleton] at hw
      subst hw
      exact hg.symm
    · intro w hl
      simp at hl
  | persistVoteStale v t₁ t₂ ht hg =>
    exact ⟨⟨[], by simp, by intro w hw; cases hw⟩, fun w _ => rfl⟩
  | startMeeting hd =>
    exact ⟨⟨[], by simp, by intro w hw; cases hw⟩, by intro w hl; simp at hl⟩
  | setRound r hd =>
    exact ⟨⟨[], by simp, by intro w hw; cases hw⟩, by intro w hl; simp at hl⟩
  | serialAgentMessage mid hd =>
    exact ⟨⟨[], by simp, by intro w hw; cases hw⟩, by intro w hl; simp at hl⟩
  | enterVote spawned hd hv =>
    exact ⟨⟨[], by simp, by intro w hw; cases hw⟩, by intro w hl; simp at hl⟩
  | spawnApprovals spawned hd hv =>
    exact ⟨⟨[], by simp, by intro w hw; cases hw⟩, by intro w hl; simp at hl⟩
  | voteRejected hd =>
    exact ⟨⟨[], by simp, by intro w hw; cases hw⟩, by intro w hl; simp at hl⟩
  | userReqArrive n =>
    exact ⟨⟨[], by simp, by intro w hw; cases hw⟩, by intro w hl; simp at hl⟩
  | userCheckReject n r₁ r₂ hr hd =>
    exact ⟨⟨[], by simp, by intro w hw; cases hw⟩, by intro w hl; simp at hl⟩
  | userMsgRun n r₁ r₂ hr hd =>
    exact ⟨⟨[], by simp, by intro w hw; cases hw⟩, by intro w hl; simp at hl⟩
  | finishAccepted htasks =>
    exact ⟨⟨[], by simp, by intro w hw; cases hw⟩, by intro w hl; simp at hl⟩
  | finishAborted htasks =>
    exact ⟨⟨[], by simp, by intro w hw; cases hw⟩, by intro w hl; simp at hl⟩

/-- Witness for c1_vote_persist_guard at a concrete step. -/
theorem c1_vote_persist_guard_witness :
    ∃ tl, traceS3.votes = traceS2.votes ++ tl ∧
      ∀ v ∈ tl, v.stage_version = traceS2.meeting.stage_version :=
  (c1_vote_persist_guard traceS2 (.persistVoteOk voteEx) traceS3 traceStep2p).1

/-- C2 counterexample: the reachable transition RUNNING_DISCUSSION →
FINISHED_ABORTED performed by finishAborted (the max-rounds abort path)
leaves stage_version unchanged, refuting the claim that stage_version
strictly increases at every state transition. -/
theorem c2_stage_version_counterexample :
    Reachable (initSys cfgEx) traceS1
    ∧ Step traceS1 .finishAborted traceFin
    ∧ traceFin.meeting.state ≠ traceS1.meeting.state
    ∧ traceFin.meeting.stage_version = traceS1.meeting.stage_version
    ∧ ¬ StageStrictOnTransition := by
  refine ⟨traceReach1, traceStep1f, by decide, rfl, ?_⟩
  intro hclaim
  have h := hclaim traceS1 .finishAborted traceFin traceStep1f (by decide)
  exact absurd h (by decide)

/-- C2 amended: stage_version never decreases; it increases by exactly
one at every transition into RUNNING_DISCUSSION or RUNNING_VOTE and at
every user interrupt received in RUNNING_VOTE; the transitions into
FINISHED_ACCEPTED and FINISHED_ABORTED leave stage_version unchanged. -/
theorem c2_stage_version_amended (s : Sys) (l : StepLabel) (s' : Sys) (h : Step s l s') :
    s.meeting.stage_version ≤ s'.meeting.stage_version
    ∧ (s'.meeting.state ≠ s.meeting.state →
        ((s'.meeting.state = .FINISHED_ACCEPTED ∨ s'.meeting.state = .FINISHED_ABORTED) →
          s'.meeting.stage_version = s.meeting.stage_version)
        ∧ ((s'.meeting.state = .RUNNING_DISCUSSION ∨ s'.meeting.state = .RUNNING_VOTE) →
          s'.meeting.stage_version = s.meeting.stage_version + 1))
    ∧ (∀ n, l = .userMsgRun n → s.meeting.state = .RUNNING_VOTE →
        s'.meeting.stage_version = s.meeting.stage_version + 1) := by
  cases h with
  | startMeeting hd =>
    refine ⟨by simp, ?_, by intro n hl; simp at hl⟩
    intro _
    exact ⟨by intro hf; rcases hf with hf | hf <;> simp at hf, fun _ => by simp⟩
  | setRound r hd =>
    exact ⟨by simp, fun hne => absurd (by simp) hne, by intro n hl; simp at hl⟩
  | serialAgentMessage mid hd =>
    exact ⟨by simp, fun hne => absurd (by simp) hne, by intro n hl; simp at hl⟩
  | enterVote spawned hd hv =>
    refine ⟨by simp, ?_, by intro n hl; simp at hl⟩
    intro _
    exact ⟨by intro hf; rcases hf with hf | hf <;> simp at hf, fun _ => by simp⟩
  | spawnApprovals spawned hd hv =>
    exact ⟨by simp, fun hne => absurd (by simp) hne, by intro n hl; simp at hl⟩
  | persistVoteOk v t₁ t₂ ht hg =>
    exact ⟨by simp, fun hne => absurd (by simp) hne, by intro n hl; simp at hl⟩
  | persistVoteStale v t₁ t₂ ht hg =>
    exact ⟨by simp, fun hne => absurd (by simp) hne, by intro n hl; simp at hl⟩
  | voteRejected hd =>
    refine ⟨by simp, ?_, by intro n hl; simp at hl⟩
    intro _
    exact ⟨by intro hf; rcases hf with hf | hf <;> simp at hf, fun _ => by simp⟩
  | userReqArrive n =>
    exact ⟨by simp, fun hne => absurd (by simp) hne, by intro m hl; simp at hl⟩
  | userCheckReject n r₁ r₂ hr hd =>
    exact ⟨by simp, fun hne => absurd (by simp) hne, by intro m hl; simp at hl⟩
  | userMsgRun n r₁ r₂ hr hd =>
    by_cases hv : s.meeting.state = .RUNNING_VOTE
    · refine ⟨by simp [applyUserMessage, hv], ?_, ?_⟩
      · intro _
        constructor
        · intro hf
          rcases hf with hf | hf <;> simp [applyUserMessage, hv] at hf
        · intro _
          simp [applyUserMessage, hv]
      · intro m _ _
        simp [applyUserMessage, hv]
    · refine ⟨by simp [applyUserMessage, hv], ?_, ?_⟩
      · intro hne
        exact absurd (by simp [applyUserMessage, hv]) hne
      · intro m _ hst
        exact absurd hst hv
  | finishAccepted htasks =>
    refine ⟨by simp, ?_, by intro n hl; simp at hl⟩
    intro _
    exact ⟨fun _ => by simp, by intro hf; rcases hf with hf | hf <;> simp at hf⟩
  | finishAborted htasks =>
    refine ⟨by simp, ?_, by intro n hl; simp at hl⟩
    intro _
    exact ⟨fun _ => by simp, by intro hf; rcases hf with hf | hf <;> simp at hf⟩

/-- Witness for c2_stage_version_amended at concrete steps: start is
monotone and the vote entry bumps stage_version by one. -/
theorem c2_stage_version_amended_witness :
    traceS0.meeting.stage_version ≤ traceS1.meeting.stage_version ∧
      traceS2.meeting.stage_version = traceS1.meeting.stage_version + 1 :=
  ⟨(c2_stage_version_amended traceS0 .startMeeting traceS1 traceStep01).1,
   ((c2_stage_version_amended traceS1 (.enterVote [voteEx]) traceS2 traceStep12).2.1
     (by decide)).2 (Or.inr rfl)⟩

theorem fdGo_unanimous_mem (agents : List AgentConfig) (base : String)
    (envs : Nat → FDAttemptEnv) :
    ∀ (ks : List Nat) (draft : String) (lastVotes : List Vote) (lastAvg : Int),
      (fdGo agents base envs ks draft lastVotes lastAvg).unanimous = true →
      ∃ k ∈ ks, fdUnanimous agents (envs k) = true := by
  intro ks
  induction ks with
  | nil =>
    intro d lv la h
    simp [fdGo] at h
  | cons attempt rest ih =>
    intro d lv la h
    simp only [fdGo] at h
    by_cases h1 : (envs attempt).stillRunningVote = false
    · rw [if_pos h1] at h
      simp at h
    · rw [if_neg h1] at h
      by_cases h2 : fdUnanimous agents (envs attempt) = true
      · exact ⟨attempt, by simp, h2⟩
      · rw [if_neg h2] at h
        by_cases h3 : (envs attempt).revise.succeeded = false
        · rw [if_pos h3] at h
          simp at h
        · rw [if_neg h3] at h
          obtain ⟨k, hk, hu⟩ := ih _ _ _ h
          exact ⟨k, List.mem_cons_of_mem _ hk, hu⟩

theorem fdGo_all_fail (agents : List AgentConfig) (base : String)
    (envs : Nat → FDAttemptEnv) :
    ∀ ks : List Nat,
      (∀ k ∈ ks, (envs k).stillRunningVote = true ∧
        (envs k).revise.succeeded = true ∧ fdUnanimous agents (envs k) = false) →
      ∀ (draft : String) (lastVotes : List Vote) (lastAvg : Int),
        (fdGo agents base envs ks draft lastVotes lastAvg).unanimous = false
        ∧ (fdGo agents base envs ks draft lastVotes lastAvg).attempts = 3 := by
  intro ks
  induction ks with
  | nil =>
    intro _ d lv la
    exact ⟨rfl, rfl⟩
  | cons attempt rest ih =>
    intro hall d lv la
    obtain ⟨h1, h2, h3⟩ := hall attempt (by simp)
    have hrest := fun k hk => hall k (List.mem_cons_of_mem _ hk)
    simp only [fdGo]
    rw [if_neg (by simp [h1])]
    rw [if_neg (by simp [h3])]
    rw [if_neg (by simp [h2])]
    exact ih hrest _ _ _

/-- C3: a run of the final-document phase is unanimous only if some
approval attempt (1, 2 or 3) collected a persisted pass=true vote from
every enabled agent; and when every one of the three attempts fails
unanimity (with the meeting staying in RUNNING_VOTE and the revision
editor succeeding), the meeting is diverted to FINISHED_ABORTED with
reason "Final result document was not approved by all agents after 3
attempt(s)" and the last draft as the persisted final document. -/
theorem c3_final_document (agents : List AgentConfig)
    (initialDraft : FinalEditorResult) (baseProposal : String)
    (envs : Nat → FDAttemptEnv) (hne : agents ≠ []) :
    ((generateFinalConsensusDocument agents initialDraft baseProposal envs).unanimous = true →
      ∃ k, (k = 1 ∨ k = 2 ∨ k = 3) ∧
        ∀ a ∈ agents, ∃ sc : Int, (envs k).outcome a.id = some (sc, true))
    ∧ ((∀ k, (k = 1 ∨ k = 2 ∨ k = 3) →
        (envs k).stillRunningVote = true ∧ (envs k).revise.succeeded = true ∧
        fdUnanimous agents (envs k) = false) →
      initialDraft.succeeded = true →
      (generateFinalConsensusDocument agents initialDraft baseProposal envs).unanimous = false
      ∧ (generateFinalConsensusDocument agents initialDraft baseProposal envs).attempts = 3
      ∧ finishAfterVoteAccepted
          (generateFinalConsensusDocument agents initialDraft baseProposal envs)
        = FinishOutcome.aborted
            "Final result document was not approved by all agents after 3 attempt(s)"
            (generateFinalConsensusDocument agents initialDraft baseProposal envs).markdown) := by
  have hlen : ¬ agents.length = 0 := fun hz => hne (List.length_eq_zero.mp hz)
  constructor
  · intro hu
    simp only [generateFinalConsensusDocument] at hu
    rw [if_neg hlen] at hu
    by_cases hsucc : initialDraft.succeeded = false
    · rw [if_pos hsucc] at hu
      simp at hu
    · rw [if_neg hsucc] at hu
      obtain ⟨k, hk, hun⟩ := fdGo_unanimous_mem agents baseProposal envs [1, 2, 3] _ [] 0 hu
      refine ⟨k, by simpa using hk, ?_⟩
      simp only [fdUnanimous, Bool.and_eq_true, decide_eq_true_eq,
        List.all_eq_true] at hun
      obtain ⟨hcov, hpass⟩ := hun
      intro a ha
      have hsome := filterMap_length_eq_isSome _ agents hcov a ha
      cases hsp : (envs k).outcome a.id with
      | none =>
        rw [hsp] at hsome
        simp at hsome
      | some r =>
        obtain ⟨sc, p⟩ := r
        have hmem : (⟨a.id, sc, p, (envs k).stage_version⟩ : Vote)
            ∈ collectFinalDocumentApprovals agents (envs k) := by
          apply List.mem_filterMap.mpr
          refine ⟨a, ha, ?_⟩
          rw [hsp]
          rfl
        have hp : p = true := hpass _ hmem
        subst hp
        exact ⟨sc, rfl⟩
  · intro hall hsucc
    have hfd : generateFinalConsensusDocument agents initialDraft baseProposal envs
        = fdGo agents baseProposal envs [1, 2, 3]
            (if initialDraft.markdown.trim ≠ "" then initialDraft.markdown else baseProposal)
            [] 0 := by
      simp only [generateFinalConsensusDocument]
      rw [if_neg hlen, if_neg (by simp [hsucc])]
    have h3 := fdGo_all_fail agents baseProposal envs [1, 2, 3]
      (fun k hk => hall k (by simpa using hk))
      (if initialDraft.markdown.trim ≠ "" then initialDraft.markdown else baseProposal) [] 0
    rw [hfd]
    refine ⟨h3.1, h3.2, ?_⟩
    unfold finishAfterVoteAccepted
    rw [if_pos h3.1, h3.2]
    congr 1

/-- Witness for c3_final_document at a concrete input: one enabled
agent that answers pass=false in every approval attempt. -/
theorem c3_final_document_witness :
    (generateFinalConsensusDocument agentsEx1
      { markdown := "Draft v1", succeeded := true } "Base proposal"
      (fun _ => fdEnvRejecting)).attempts = 3 :=
  ((c3_final_document agentsEx1 { markdown := "Draft v1", succeeded := true }
      "Base proposal" (fun _ => fdEnvRejecting) (by decide)).2
    (fun k _ => ⟨rfl, rfl, by decide⟩) rfl).2.1

end AIMeeting
